import Mathlib

/-!
# Verification of the bulk-shipping-label-creator ingestion/validation/pricing core

Shallow embedding of the Python modules
`apps/validators.py`, `apps/pricing.py` and `apps/address_validator.py`
of the `bulk-shipping-label-creator` repository, together with theorems
settling the specification claims about them.

Conventions of the embedding:
* Python `str` is `String`; `value.strip()` is `pyStrip` (a kernel-reducible
  model of stripping surrounding whitespace).
* Python `Decimal` prices are `ℚ` (`Decimal` arithmetic on these inputs is
  exact decimal arithmetic, which `ℚ` models exactly; `float` conversion of
  the two-decimal prices occurring here is exact as well).  Parsed
  dimension cells are `Option PyDecimal`, which also carries the NaN and
  infinity values `Decimal(str)` can produce.
* Python `None`-able numeric cells are `Option Int` / `Option PyDecimal`;
  `int(float(...))` is modelled with the exact IEEE-754 binary64 rounding
  and overflow (`roundToDouble`), and the uncaught `OverflowError` it can
  raise is an `Except.error` that the per-row handler turns into a skipped
  row.  Digit classification is modelled for ASCII digits.
* Python dict records become structures; `dict.get(k, "")` on the
  default-address dict becomes a total structure of strings.
* exceptions become `Except`/`Option` results; functions that cannot raise
  are total Lean functions.
-/

namespace Shipping

/-! ## Data model (`validators.py` record layout) -/

/-- A value of Python's `Decimal`: a finite (exact) rational, a NaN
(quiet or signaling, payload ignored), or a signed infinity. -/
inductive PyDecimal where
  | num (q : ℚ)
  | nan
  | inf (neg : Bool)
  deriving Repr, DecidableEq

/-- A parsed shipment record: the 23 positional columns of the upload file
plus the source row number, exactly the dict built in
`parse_csv_file` (`validators.py` lines 54-84). -/
structure FieldRecord where
  ship_from_first_name : String
  ship_from_last_name : String
  ship_from_address : String
  ship_from_address2 : String
  ship_from_city : String
  ship_from_zip : String
  ship_from_state : String
  ship_to_first_name : String
  ship_to_last_name : String
  ship_to_address : String
  ship_to_address2 : String
  ship_to_city : String
  ship_to_zip : String
  ship_to_state : String
  weight_lbs : Option Int
  weight_oz : Option Int
  length : Option PyDecimal
  width : Option PyDecimal
  height : Option PyDecimal
  ship_to_phone : String
  ship_from_phone : String
  order_no : String
  item_sku : String
  row_number : Nat
  deriving Repr, DecidableEq

/-- The default sender address supplied to `validate_shipment_data`:
the eight keys read with `default_address.get(k, "")`
(`validators.py` lines 164-171). -/
structure DefaultAddress where
  first_name : String
  last_name : String
  address : String
  address2 : String
  city : String
  state : String
  zip_code : String
  phone : String
  deriving Repr, DecidableEq

/-! ## Numeric cell parsers (`validators.py` `_parse_int`, `_parse_decimal`) -/

/-- The characters Python `str.isspace()` recognises (and `str.strip()`
removes): ASCII whitespace including vertical tab and form feed, the
file/group/record/unit separators, NEL, NBSP, and the Unicode space
separators and line/paragraph separators. -/
def pyIsSpace (c : Char) : Bool :=
  let n := c.toNat
  n = 32 ∨ (9 ≤ n ∧ n ≤ 13) ∨ (28 ≤ n ∧ n ≤ 31) ∨ n = 133 ∨ n = 160 ∨ n = 5760 ∨
    (8192 ≤ n ∧ n ≤ 8202) ∨ n = 8232 ∨ n = 8233 ∨ n = 8239 ∨ n = 8287 ∨ n = 12288

/-- Python `str.strip()`: drop leading and trailing whitespace
(`pyIsSpace`). -/
def pyStrip (s : String) : String :=
  ⟨((s.data.dropWhile pyIsSpace).reverse.dropWhile pyIsSpace).reverse⟩

/-- Decimal value of a digit list, as `int(...)` computes it for an
all-digit string.  Digits are modelled as ASCII `0`-`9` (`Char.isDigit`);
cells using non-ASCII Unicode digit characters are outside the modelled
scope. -/
def charsToNat (l : List Char) : Nat :=
  l.foldl (fun n c => n * 10 + (c.toNat - 48)) 0

/-- Fuelled bit-length loop (the fuel only bounds the recursion; any fuel
at least the actual bit length gives the exact answer). -/
def bitLenAux : Nat → Nat → Nat
  | 0, _ => 0
  | fuel + 1, n => if n = 0 then 0 else bitLenAux fuel (n / 2) + 1

/-- Number of binary digits of `n` (0 for 0). -/
def bitLength (n : Nat) : Nat :=
  bitLenAux n n

/-- Round an integer to the nearest IEEE-754 binary64 value (round half to
even on the 53-bit significand), as CPython's correctly-rounded
`float(str)` conversion does for an integer-valued decimal string;
`none` means the rounded magnitude reaches `2^1024`, where the conversion
overflows to infinity.  For finite results `int(float(...))` returns this
integer exactly, because the rounded double is integer-valued. -/
def roundToDouble (n : ℤ) : Option ℤ :=
  let a := n.natAbs
  if a < 2 ^ 53 then some n
  else
    let e := bitLength a - 53
    let q := a / 2 ^ e
    let r := a % 2 ^ e
    let half := 2 ^ (e - 1)
    let q2 := if r < half then q else if half < r then q + 1 else if q % 2 = 0 then q else q + 1
    let v := q2 * 2 ^ e
    if v < 2 ^ 1024 then some (if n < 0 then -(v : ℤ) else (v : ℤ)) else none

/-- Model of Python `int(float(cleaned))` for a string made only of digits
and `-` characters: a valid float literal here is an optional single
leading minus followed by at least one digit — anything else raises
`ValueError`, which the source catches and turns into `None` (`.ok none`).
A valid literal is rounded through a 64-bit double; when that conversion
overflows to infinity, `int(inf)` raises `OverflowError`, which the source
does NOT catch (`except (ValueError, TypeError)`), so the error escapes
(`.error`). -/
def intOfCleaned (l : List Char) : Except String (Option Int) :=
  match l with
  | [] => .ok none
  | '-' :: rest =>
    if rest ≠ [] ∧ rest.all Char.isDigit then
      match roundToDouble (-(charsToNat rest : Int)) with
      | some m => .ok (some m)
      | none => .error "OverflowError"
    else .ok none
  | c :: cs =>
    if (c :: cs).all Char.isDigit then
      match roundToDouble ((charsToNat (c :: cs) : Nat) : Int) with
      | some m => .ok (some m)
      | none => .error "OverflowError"
    else .ok none

/-- `_parse_int` (`validators.py` lines 100-111): blank input gives `None`;
otherwise every character that is neither a digit nor `-` is removed and
the remainder is read as `int(float(...))`.  `ValueError`/`TypeError` are
caught and give `None` (`.ok none`); an `OverflowError` from an overlong
digit string is NOT caught and propagates to the caller (`.error`). -/
def _parse_int (value : String) : Except String (Option Int) :=
  if pyStrip value = "" then .ok none
  else
    let cleaned := (pyStrip value).data.filter (fun c => c.isDigit || c == '-')
    if cleaned.isEmpty then .ok none
    else intOfCleaned cleaned

/-- Digits of a decimal fragment as a natural number, `none` when empty or
containing a non-digit. -/
def digitsVal (l : List Char) : Option Nat :=
  if l ≠ [] ∧ l.all Char.isDigit then some (charsToNat l) else none

/-- Ten to an integer power, as an exact rational. -/
def pow10 (e : ℤ) : ℚ :=
  if 0 ≤ e then ((10 : ℚ) ^ e.toNat) else 1 / ((10 : ℚ) ^ (-e).toNat)

/-- `digits [. digits]` / `. digits` / `digits .` as an exact rational;
`none` for anything else. -/
def mantissaVal (l : List Char) : Option ℚ :=
  match l.splitOn '.' with
  | [ip] => (digitsVal ip).map (fun n => (n : ℚ))
  | [ip, fp] =>
    if ip.all Char.isDigit ∧ fp.all Char.isDigit ∧ (ip ≠ [] ∨ fp ≠ []) then
      some ((charsToNat ip : ℚ) + (charsToNat fp : ℚ) / ((10 : ℚ) ^ fp.length))
    else none
  | _ => none

/-- An optionally signed exponent of a decimal literal. -/
def expVal (l : List Char) : Option ℤ :=
  match l with
  | '+' :: rest => (digitsVal rest).map (fun n => (n : ℤ))
  | '-' :: rest => (digitsVal rest).map (fun n => -(n : ℤ))
  | l => (digitsVal l).map (fun n => (n : ℤ))

/-- An unsigned numeric `Decimal` literal: mantissa with an optional
`e`-exponent (the input is lower-cased before the split). -/
def magnitudeVal (l : List Char) : Option ℚ :=
  match l.splitOn 'e' with
  | [m] => mantissaVal m
  | [m, ex] =>
    match mantissaVal m, expVal ex with
    | some q, some e => some (q * pow10 e)
    | _, _ => none
  | _ => none

/-- Python `Decimal(str)` on an already-stripped string: underscores are
removed anywhere (CPython behaviour), then an optional sign followed by
`inf`/`infinity`, `nan`/`snan` with an optional digit payload, or a
numeric literal with optional exponent, all case-insensitive; anything
else raises `InvalidOperation` (`none` here, caught by the source). -/
def decimalParse (s : String) : Option PyDecimal :=
  let u := s.data.filter (fun c => c ≠ '_')
  let (neg, t) :=
    match u with
    | '-' :: rest => (true, rest)
    | '+' :: rest => (false, rest)
    | l => (false, l)
  let tl := t.map Char.toLower
  if tl = "inf".data ∨ tl = "infinity".data then some (.inf neg)
  else if tl.take 3 = "nan".data ∧ (tl.drop 3).all Char.isDigit then some .nan
  else if tl.take 4 = "snan".data ∧ (tl.drop 4).all Char.isDigit then some .nan
  else (magnitudeVal tl).map (fun q => .num (if neg then -q else q))

/-- `_parse_decimal` (`validators.py` lines 114-121): blank gives `None`,
otherwise `Decimal(str(value).strip())`; an `InvalidOperation` (or
`ValueError`/`TypeError`) is caught and gives `None`.  `Decimal` itself
never raises anything else here, so this function is total. -/
def _parse_decimal (value : String) : Option PyDecimal :=
  if pyStrip value = "" then none
  else decimalParse (pyStrip value)

/-! ## Tabular parser (`validators.py` `parse_csv_file`)

The embedding takes the output of `csv.reader` — the list of lines, each
already split into cells — as input; CSV lexing itself is outside the
claims. -/

/-- A line is skipped when every cell strips to empty
(`not any(cell.strip() for cell in row)`, line 46). -/
def isBlankRow (row : List String) : Bool :=
  row.all (fun cell => pyStrip cell = "")

/-- Right-pad a row with empty strings to 23 cells
(`while len(row) < 23: row.append("")`, lines 50-51). -/
def padRow (row : List String) : List String :=
  row ++ List.replicate (23 - row.length) ""

/-- Build the record dict from a (padded) row and its row number
(`validators.py` lines 54-84); positional access `row[i]` with the
`len(row) > i` guards, which after padding is `getD i ""`.  The dict
entries are evaluated in order inside the per-row `try`; the only
expression that can raise is `_parse_int` on the two weight cells
(`OverflowError`), so building fails (`.error`) exactly when one of them
does, weight pounds first. -/
def buildRecord (row : List String) (row_num : Nat) : Except String FieldRecord :=
  match _parse_int (row.getD 14 "") with
  | .error e => .error e
  | .ok weight_lbs =>
    match _parse_int (row.getD 15 "") with
    | .error e => .error e
    | .ok weight_oz =>
      .ok { ship_from_first_name := pyStrip (row.getD 0 "")
            ship_from_last_name := pyStrip (row.getD 1 "")
            ship_from_address := pyStrip (row.getD 2 "")
            ship_from_address2 := pyStrip (row.getD 3 "")
            ship_from_city := pyStrip (row.getD 4 "")
            ship_from_zip := pyStrip (row.getD 5 "")
            ship_from_state := pyStrip (row.getD 6 "")
            ship_to_first_name := pyStrip (row.getD 7 "")
            ship_to_last_name := pyStrip (row.getD 8 "")
            ship_to_address := pyStrip (row.getD 9 "")
            ship_to_address2 := pyStrip (row.getD 10 "")
            ship_to_city := pyStrip (row.getD 11 "")
            ship_to_zip := pyStrip (row.getD 12 "")
            ship_to_state := pyStrip (row.getD 13 "")
            weight_lbs := weight_lbs
            weight_oz := weight_oz
            length := _parse_decimal (row.getD 16 "")
            width := _parse_decimal (row.getD 17 "")
            height := _parse_decimal (row.getD 18 "")
            ship_to_phone := pyStrip (row.getD 19 "")
            ship_from_phone := pyStrip (row.getD 20 "")
            order_no := pyStrip (row.getD 21 "")
            item_sku := pyStrip (row.getD 22 "")
            row_number := row_num }

/-- The data-line loop of `parse_csv_file` (lines 40-90): `row_num` starts
at 2 and is incremented for every physical line, blank lines included;
blank lines are skipped, others are padded and turned into records.  A row
whose record construction raises is caught by the per-row
`except Exception` (lines 88-90), logged and skipped — it still counts for
the row numbering. -/
def parseRows : List (List String) → Nat → List FieldRecord
  | [], _ => []
  | row :: rest, row_num =>
    if isBlankRow row then parseRows rest (row_num + 1)
    else
      match buildRecord (padRow row) (row_num + 1) with
      | .ok record => record :: parseRows rest (row_num + 1)
      | .error _ => parseRows rest (row_num + 1)

/-- `parse_csv_file` (lines 14-97) over the line/cell structure of the
file: fewer than two header lines (or an empty header line, which is falsy
in `if not header_row_1 or not header_row_2`) aborts with the wrapped
`ValueError` message; otherwise both headers are discarded and the data
lines are parsed. -/
def parse_csv_file : List (List String) → Except String (List FieldRecord)
  | [] => .error "Failed to parse CSV file: CSV file must have at least 2 header rows"
  | [_] => .error "Failed to parse CSV file: CSV file must have at least 2 header rows"
  | header_row_1 :: header_row_2 :: rows =>
    if header_row_1 = [] ∨ header_row_2 = [] then
      .error "Failed to parse CSV file: CSV file must have at least 2 header rows"
    else
      .ok (parseRows rows 2)

/-! ## Record validator (`validators.py` `validate_shipment_data`) -/

/-- The mutable triple of the validator body: the record (mutated by the
default-address backfill), the `status` string and the `issues` list. -/
structure VState where
  record : FieldRecord
  status : String
  issues : List String
  deriving Repr, DecidableEq

/-- Lines 135-137: missing recipient name. -/
def checkShipToName (s : VState) : VState :=
  if s.record.ship_to_first_name = "" ∧ s.record.ship_to_last_name = "" then
    { s with status := "error", issues := s.issues ++ ["Missing Ship To name"] }
  else s

/-- Lines 139-141: missing recipient street. -/
def checkShipToAddress (s : VState) : VState :=
  if s.record.ship_to_address = "" then
    { s with status := "error", issues := s.issues ++ ["Missing Ship To address"] }
  else s

/-- Lines 143-145: missing recipient city. -/
def checkShipToCity (s : VState) : VState :=
  if s.record.ship_to_city = "" then
    { s with status := "error", issues := s.issues ++ ["Missing Ship To city"] }
  else s

/-- Lines 147-149: missing recipient state. -/
def checkShipToState (s : VState) : VState :=
  if s.record.ship_to_state = "" then
    { s with status := "error", issues := s.issues ++ ["Missing Ship To state"] }
  else s

/-- Lines 151-153: missing recipient postal code. -/
def checkShipToZip (s : VState) : VState :=
  if s.record.ship_to_zip = "" then
    { s with status := "error", issues := s.issues ++ ["Missing Ship To ZIP code"] }
  else s

/-- The `ship_from_missing` condition (lines 156-160): sender first name AND
street AND city all falsy. -/
def ship_from_missing (r : FieldRecord) : Bool :=
  r.ship_from_first_name = "" ∧ r.ship_from_address = "" ∧ r.ship_from_city = ""

/-- The backfill block (lines 164-171): all eight sender fields overwritten
from the default address. -/
def applyDefaultAddress (r : FieldRecord) (d : DefaultAddress) : FieldRecord :=
  { r with
    ship_from_first_name := d.first_name
    ship_from_last_name := d.last_name
    ship_from_address := d.address
    ship_from_address2 := d.address2
    ship_from_city := d.city
    ship_from_state := d.state
    ship_from_zip := d.zip_code
    ship_from_phone := d.phone }

/-- Lines 162-178: default-address backfill / missing-sender warning. -/
def checkShipFrom (default_address : Option DefaultAddress) (s : VState) : VState :=
  if ship_from_missing s.record then
    match default_address with
    | some d =>
      { record := applyDefaultAddress s.record d
        status := if s.status = "valid" then "default_applied" else s.status
        issues := s.issues }
    | none =>
      { s with
        status := if s.status = "valid" then "warning" else s.status
        issues := s.issues ++ ["Missing Ship From address"] }
  else s

/-- Python truthiness of an optional integer cell (`record.get("weight_lbs")`):
`None` and `0` are falsy. -/
def intTruthy (o : Option Int) : Bool :=
  match o with
  | none => false
  | some n => n ≠ 0

/-- Python truthiness of an optional `Decimal` cell: `None` and zero
`Decimal` values are falsy; NaN and infinities are truthy. -/
def decTruthy (o : Option PyDecimal) : Bool :=
  match o with
  | none => false
  | some (.num q) => q ≠ 0
  | some .nan => true
  | some (.inf _) => true

/-- Lines 181-195: package weight/dimension warnings. -/
def checkPackage (s : VState) : VState :=
  let has_weight := intTruthy s.record.weight_lbs || intTruthy s.record.weight_oz
  let has_dimensions :=
    decTruthy s.record.length && decTruthy s.record.width && decTruthy s.record.height
  if !has_weight && !has_dimensions then
    { s with
      status := if s.status = "valid" then "warning" else s.status
      issues := s.issues ++ ["Missing package weight and dimensions"] }
  else if !has_weight then
    { s with
      status := if s.status = "valid" then "warning" else s.status
      issues := s.issues ++ ["Missing package weight"] }
  else if !has_dimensions then
    { s with
      status := if s.status = "valid" then "warning" else s.status
      issues := s.issues ++ ["Missing package dimensions"] }
  else s

/-- `validate_shipment_data` (lines 124-200): the checks run in source
order on the state initialised with `status = "valid"`, `issues = []`. -/
def validate_shipment_data (record : FieldRecord)
    (default_address : Option DefaultAddress) : VState :=
  checkPackage
    (checkShipFrom default_address
      (checkShipToZip (checkShipToState (checkShipToCity (checkShipToAddress
        (checkShipToName { record := record, status := "valid", issues := [] }))))))

/-! ## Price quoter (`pricing.py`) -/

/-- One service tier configuration (`SHIPPING_SERVICES` values). -/
structure ServiceConfig where
  name : String
  base_price : ℚ
  per_oz_rate : ℚ
  min_price : ℚ
  max_price : ℚ
  deriving Repr, DecidableEq

/-- The configured tiers, in dict insertion order (`pricing.py` lines 13-28). -/
def SHIPPING_SERVICES : List (String × ServiceConfig) :=
  [("priority_mail",
    { name := "Priority Mail", base_price := 5.00, per_oz_rate := 0.10,
      min_price := 4.00, max_price := 8.00 }),
   ("ground_shipping",
    { name := "Ground Shipping", base_price := 2.50, per_oz_rate := 0.05,
      min_price := 2.00, max_price := 5.00 })]

/-- `Decimal.quantize(Decimal("0.01"))` with the default `ROUND_HALF_EVEN`
context rounding: round `q` to 2 decimal places, ties to the even
hundredth. -/
def quantize2 (q : ℚ) : ℚ :=
  let s := q * 100
  let f : ℤ := Int.fdiv s.num (s.den : ℤ)
  let r : ℚ := s - (f : ℚ)
  let n : ℤ :=
    if r < 1 / 2 then f
    else if 1 / 2 < r then f + 1
    else if f % 2 = 0 then f else f + 1
  (n : ℚ) / 100

/-- `calculate_shipping_price` (`pricing.py` lines 31-72), parameterised by
the service table the module reads globally: unknown service returns
`Decimal("0.00")`; otherwise ounces are summed with Python truthiness,
floored to 1 oz when zero, priced linearly, clamped and quantized.
The dimension parameters are accepted and unused, as in the source. -/
def calcPriceWith (services : List (String × ServiceConfig)) (service : String)
    (weight_lbs weight_oz : Option Int) (length width height : Option ℚ) : ℚ :=
  match services.lookup service with
  | none => 0
  | some config =>
    let total_oz : Int :=
      (if intTruthy weight_lbs then (weight_lbs.getD 0) * 16 else 0) +
      (if intTruthy weight_oz then weight_oz.getD 0 else 0)
    let total_oz : Int := if total_oz = 0 then 1 else total_oz
    let price := config.base_price + (total_oz : ℚ) * config.per_oz_rate
    let price := max price config.min_price
    let price := min price config.max_price
    quantize2 price

/-- `calculate_shipping_price` against the module-level `SHIPPING_SERVICES`. -/
def calculate_shipping_price (service : String) (weight_lbs weight_oz : Option Int)
    (length width height : Option ℚ) : ℚ :=
  calcPriceWith SHIPPING_SERVICES service weight_lbs weight_oz length width height

/-- One entry of the `get_available_services` result list
(`pricing.py` lines 97-105). -/
structure ServiceQuote where
  id : String
  name : String
  base_price : ℚ
  per_oz_rate : ℚ
  price : ℚ
  deriving Repr, DecidableEq

/-- The pre-sort quote list: one entry per configured tier, in
configuration iteration order (`pricing.py` lines 85-105). -/
def quotesFor (services : List (String × ServiceConfig))
    (weight_lbs weight_oz : Option Int) (length width height : Option ℚ) :
    List ServiceQuote :=
  services.map (fun p =>
    { id := p.1
      name := p.2.name
      base_price := p.2.base_price
      per_oz_rate := p.2.per_oz_rate
      price := calcPriceWith services p.1 weight_lbs weight_oz length width height })

/-- The comparison used by `services.sort(key=lambda x: x["price"])`. -/
def priceLE (a b : ServiceQuote) : Prop :=
  a.price ≤ b.price

instance : DecidableRel priceLE := fun a b => inferInstanceAs (Decidable (a.price ≤ b.price))

instance : IsTotal ServiceQuote priceLE := ⟨fun a b => le_total a.price b.price⟩

instance : IsTrans ServiceQuote priceLE := ⟨fun _ _ _ hab hbc => le_trans hab hbc⟩

/-- `get_available_services` (`pricing.py` lines 75-110), parameterised by
the service table: build one quote per tier, then sort ascending by price.
Python `list.sort` is a stable sort; `List.insertionSort` with the
non-strict comparison is extensionally the same stable sort. -/
def get_available_services_with (services : List (String × ServiceConfig))
    (weight_lbs weight_oz : Option Int) (length width height : Option ℚ) :
    List ServiceQuote :=
  List.insertionSort priceLE (quotesFor services weight_lbs weight_oz length width height)

/-- `get_available_services` against the module-level `SHIPPING_SERVICES`. -/
def get_available_services (weight_lbs weight_oz : Option Int)
    (length width height : Option ℚ) : List ServiceQuote :=
  get_available_services_with SHIPPING_SERVICES weight_lbs weight_oz length width height

/-- `get_most_affordable_service` (`pricing.py` lines 113-134). -/
def get_most_affordable_service (weight_lbs weight_oz : Option Int)
    (length width height : Option ℚ) : String :=
  match get_available_services weight_lbs weight_oz length width height with
  | [] => "ground_shipping"
  | s :: _ => s.id

/-! ## Address verification resolver (`address_validator.py`) -/

/-- The five address fields handed to a provider
(`validate_shipment_address` builds exactly these). -/
structure AddressData where
  address : String
  address2 : String
  city : String
  state : String
  zip : String
  deriving Repr, DecidableEq

/-- The resolver's outcome dict (`validate_address` return shape). -/
structure VerificationOutcome where
  valid : Bool
  source : String
  message : String
  validated_address : Option AddressData
  deriving Repr, DecidableEq

/-- What one provider call can do, seen from the resolver: return a result
dict, or raise (any exception — transport or parsing). -/
inductive ProviderResult where
  | ok (outcome : VerificationOutcome)
  | exn
  deriving Repr, DecidableEq

/-- One provider block of `AddressValidator.validate_address`
(`address_validator.py` lines 33-47 and 49-63): the provider is consulted
only when its credential is non-empty (the settings-derived attributes
default to `""`, and `if self.usps_user_id:` is string truthiness); an
exception or a non-affirmative result yields `none`, meaning
"fall through to the next provider". -/
def providerStep (credential : String) (result : ProviderResult) :
    Option VerificationOutcome :=
  if credential ≠ "" then
    match result with
    | .ok res => if res.valid then some res else none
    | .exn => none
  else none

/-- `AddressValidator.validate_address` (`address_validator.py` lines
23-72), with the two provider calls abstracted as oracles and the
settings-derived credentials as explicit parameters: primary (USPS) step,
then fallback (Google) step, then the fixed manual-verification outcome.
The input address is never written to, which the pure embedding makes
structural. -/
def validate_address (usps_user_id google_api_key : String)
    (usps google : AddressData → ProviderResult) (address_data : AddressData) :
    VerificationOutcome :=
  match providerStep usps_user_id (usps address_data) with
  | some res => res
  | none =>
    match providerStep google_api_key (google address_data) with
    | some res => res
    | none =>
      { valid := false
        source := "none"
        message := "Address validation unavailable. Please verify address manually."
        validated_address := none }

/-! ## Derived characterisations of the validator

These definitions restate the net effect of `validate_shipment_data`'s
sequential mutation; `validate_eq` below proves them equal to the faithful
embedding, and the claim theorems work through them. -/

/-- Some recipient check (steps 1-5) fired: the final status is `"error"`. -/
def recipBad (r : FieldRecord) : Bool :=
  (r.ship_to_first_name = "" ∧ r.ship_to_last_name = "") ∨ r.ship_to_address = "" ∨
    r.ship_to_city = "" ∨ r.ship_to_state = "" ∨ r.ship_to_zip = ""

/-- The issue strings appended by the five recipient checks, in order. -/
def recipIssues (r : FieldRecord) : List String :=
  (if r.ship_to_first_name = "" ∧ r.ship_to_last_name = "" then ["Missing Ship To name"] else []) ++
  (if r.ship_to_address = "" then ["Missing Ship To address"] else []) ++
  (if r.ship_to_city = "" then ["Missing Ship To city"] else []) ++
  (if r.ship_to_state = "" then ["Missing Ship To state"] else []) ++
  (if r.ship_to_zip = "" then ["Missing Ship To ZIP code"] else [])

/-- The issue strings appended by the package checks. -/
def pkgIssues (r : FieldRecord) : List String :=
  let has_weight := intTruthy r.weight_lbs || intTruthy r.weight_oz
  let has_dimensions := decTruthy r.length && decTruthy r.width && decTruthy r.height
  if !has_weight && !has_dimensions then ["Missing package weight and dimensions"]
  else if !has_weight then ["Missing package weight"]
  else if !has_dimensions then ["Missing package dimensions"]
  else []

/-- The record as it stands after the validator ran: unchanged except for
the default-address backfill. -/
def newRecord (r : FieldRecord) (d : Option DefaultAddress) : FieldRecord :=
  if ship_from_missing r then
    match d with
    | some dd => applyDefaultAddress r dd
    | none => r
  else r

/-- The final status of `validate_shipment_data`. -/
def statusOf (r : FieldRecord) (d : Option DefaultAddress) : String :=
  if recipBad r then "error"
  else if ship_from_missing r then
    match d with
    | some _ => "default_applied"
    | none => "warning"
  else if pkgIssues r ≠ [] then "warning" else "valid"

/-- The final issues list of `validate_shipment_data`. -/
def issuesOf (r : FieldRecord) (d : Option DefaultAddress) : List String :=
  recipIssues r ++
    (if ship_from_missing r ∧ d = none then ["Missing Ship From address"] else []) ++
    pkgIssues r

/-- A provider answer that does not affirm the address: a result dict with
`valid = False`, or an exception. -/
def notAffirmative (pr : ProviderResult) : Prop :=
  match pr with
  | .ok o => o.valid = false
  | .exn => True

/-! ## Concrete example data used by counterexamples and witnesses -/

/-- Recipient complete, sender entirely blank, package complete. -/
def senderlessRecord : FieldRecord :=
  { ship_from_first_name := "", ship_from_last_name := "", ship_from_address := "",
    ship_from_address2 := "", ship_from_city := "", ship_from_zip := "", ship_from_state := "",
    ship_to_first_name := "Jane", ship_to_last_name := "Doe", ship_to_address := "1 Main St",
    ship_to_address2 := "", ship_to_city := "Springfield", ship_to_zip := "62704",
    ship_to_state := "IL", weight_lbs := some 1, weight_oz := some 2,
    length := some (.num 3), width := some (.num 4), height := some (.num 5),
    ship_to_phone := "", ship_from_phone := "", order_no := "", item_sku := "",
    row_number := 3 }

/-- A fully populated default sender address. -/
def fullDefault : DefaultAddress :=
  { first_name := "Acme", last_name := "Corp", address := "9 Warehouse Rd", address2 := "",
    city := "Metropolis", state := "NY", zip_code := "10001", phone := "5551234" }

/-- Sender first name present but sender street and city blank; recipient
complete, package complete. -/
def namedSenderRecord : FieldRecord :=
  { ship_from_first_name := "Alice", ship_from_last_name := "", ship_from_address := "",
    ship_from_address2 := "", ship_from_city := "", ship_from_zip := "", ship_from_state := "",
    ship_to_first_name := "Bob", ship_to_last_name := "Smith", ship_to_address := "2 Oak Ave",
    ship_to_address2 := "", ship_to_city := "Shelbyville", ship_to_zip := "62705",
    ship_to_state := "IL", weight_lbs := some 1, weight_oz := some 2,
    length := some (.num 3), width := some (.num 4), height := some (.num 5),
    ship_to_phone := "", ship_from_phone := "", order_no := "", item_sku := "",
    row_number := 3 }

/-- A concrete address handed to the resolver in examples. -/
def exampleAddress : AddressData :=
  { address := "1 Main St", address2 := "", city := "Springfield", state := "IL",
    zip := "62704" }

/-- A 400-digit string of nines: `float` of it overflows to infinity, so
`int(float(...))` raises `OverflowError`. -/
def nines400 : String :=
  ⟨List.replicate 400 '9'⟩

/-- A 15-cell data line whose weight-pounds cell (index 14) is the
overlong digit string: shorter than 23 fields, not blank, and its record
construction raises. -/
def overflowRow : List String :=
  ["", "", "", "", "", "", "", "", "", "", "", "", "", "", nines400]

/-- The record the parser produces for the one-cell line `["Alice"]` at
row number 3: first sender field set, everything else empty or absent. -/
def aliceRecord : FieldRecord :=
  { ship_from_first_name := "Alice", ship_from_last_name := "", ship_from_address := "",
    ship_from_address2 := "", ship_from_city := "", ship_from_zip := "", ship_from_state := "",
    ship_to_first_name := "", ship_to_last_name := "", ship_to_address := "",
    ship_to_address2 := "", ship_to_city := "", ship_to_zip := "", ship_to_state := "",
    weight_lbs := none, weight_oz := none, length := none, width := none, height := none,
    ship_to_phone := "", ship_from_phone := "", order_no := "", item_sku := "",
    row_number := 3 }

/-! ## Helper lemmas -/

theorem shipToChain_spec (r : FieldRecord) :
    checkShipToZip (checkShipToState (checkShipToCity (checkShipToAddress
        (checkShipToName { record := r, status := "valid", issues := [] })))) =
      { record := r
        status := if recipBad r then "error" else "valid"
        issues := recipIssues r } := by
  unfold checkShipToName checkShipToAddress checkShipToCity checkShipToState checkShipToZip
    recipBad recipIssues
  by_cases h1 : r.ship_to_first_name = "" ∧ r.ship_to_last_name = "" <;>
    by_cases h2 : r.ship_to_address = "" <;>
    by_cases h3 : r.ship_to_city = "" <;>
    by_cases h4 : r.ship_to_state = "" <;>
    by_cases h5 : r.ship_to_zip = "" <;>
    simp [h1, h2, h3, h4, h5]

theorem checkShipFrom_spec (d : Option DefaultAddress) (r : FieldRecord) (st : String)
    (is : List String) :
    checkShipFrom d { record := r, status := st, issues := is } =
      { record := newRecord r d
        status :=
          if ship_from_missing r ∧ st = "valid" then
            match d with
            | some _ => "default_applied"
            | none => "warning"
          else st
        issues := is ++
          (if ship_from_missing r ∧ d = none then ["Missing Ship From address"] else []) } := by
  unfold checkShipFrom newRecord
  cases d <;> by_cases hm : ship_from_missing r <;> by_cases hs : st = "valid" <;>
    simp [hm, hs]

theorem checkPackage_spec (r : FieldRecord) (st : String) (is : List String) :
    checkPackage { record := r, status := st, issues := is } =
      { record := r
        status := if pkgIssues r ≠ [] ∧ st = "valid" then "warning" else st
        issues := is ++ pkgIssues r } := by
  unfold checkPackage pkgIssues
  by_cases hw : (intTruthy r.weight_lbs || intTruthy r.weight_oz) = true <;>
    by_cases hd : (decTruthy r.length && decTruthy r.width && decTruthy r.height) = true <;>
    by_cases hs : st = "valid" <;>
    simp [hw, hd, hs]

theorem pkgIssues_applyDefault (r : FieldRecord) (dd : DefaultAddress) :
    pkgIssues (applyDefaultAddress r dd) = pkgIssues r := rfl

/-- Characterisation of the validator: the sequential mutating checks of
`validate_shipment_data` compute exactly `newRecord`, `statusOf`,
`issuesOf`. -/
theorem validate_eq (r : FieldRecord) (d : Option DefaultAddress) :
    validate_shipment_data r d =
      { record := newRecord r d, status := statusOf r d, issues := issuesOf r d } := by
  unfold validate_shipment_data
  rw [shipToChain_spec, checkShipFrom_spec, checkPackage_spec]
  have hpkg : pkgIssues (newRecord r d) = pkgIssues r := by
    unfold newRecord
    cases d <;> by_cases hm : ship_from_missing r <;> simp [hm, pkgIssues_applyDefault]
  rw [hpkg]
  unfold statusOf issuesOf
  cases d <;> by_cases hb : recipBad r <;> by_cases hm : ship_from_missing r <;>
    by_cases hp : pkgIssues r ≠ [] <;> simp [hb, hm, hp, List.append_assoc]

/-- Rounding to two decimals is the identity on exact multiples of `1/100`. -/
theorem quantize2_centi (m : ℤ) : quantize2 ((m : ℚ) / 100) = (m : ℚ) / 100 := by
  have hs : ((m : ℚ) / 100) * 100 = (m : ℚ) := by field_simp
  unfold quantize2
  rw [hs]
  simp [Rat.num_intCast, Rat.den_intCast, Int.fdiv_one]

theorem recipBad_applyDefault (r : FieldRecord) (dd : DefaultAddress) :
    recipBad (applyDefaultAddress r dd) = recipBad r := rfl

theorem recipIssues_applyDefault (r : FieldRecord) (dd : DefaultAddress) :
    recipIssues (applyDefaultAddress r dd) = recipIssues r := rfl

theorem missing_applyDefault (r : FieldRecord) (dd : DefaultAddress) :
    ship_from_missing (applyDefaultAddress r dd) =
      (dd.first_name = "" ∧ dd.address = "" ∧ dd.city = "" : Bool) := rfl

theorem applyDefault_idem (r : FieldRecord) (dd : DefaultAddress) :
    applyDefaultAddress (applyDefaultAddress r dd) dd = applyDefaultAddress r dd := rfl

theorem sfMsg_not_recip (r : FieldRecord) :
    "Missing Ship From address" ∉ recipIssues r := by
  unfold recipIssues
  split_ifs <;> simp

theorem sfMsg_not_pkg (r : FieldRecord) :
    "Missing Ship From address" ∉ pkgIssues r := by
  unfold pkgIssues
  dsimp only
  split_ifs <;> simp

theorem centiDiv_le (a b : ℤ) (h : a ≤ b) : (a : ℚ) / 100 ≤ (b : ℚ) / 100 := by
  gcongr

theorem centi_sup (a b : ℤ) : ((a : ℚ) / 100) ⊔ ((b : ℚ) / 100) = ((a ⊔ b : ℤ) : ℚ) / 100 := by
  rcases le_total a b with h | h
  · rw [sup_eq_right.mpr (centiDiv_le a b h), sup_eq_right.mpr (by exact_mod_cast h)]
  · rw [sup_eq_left.mpr (centiDiv_le b a h), sup_eq_left.mpr (by exact_mod_cast h)]

theorem centi_inf (a b : ℤ) : ((a : ℚ) / 100) ⊓ ((b : ℚ) / 100) = ((a ⊓ b : ℤ) : ℚ) / 100 := by
  rcases le_total a b with h | h
  · rw [inf_eq_left.mpr (centiDiv_le a b h), inf_eq_left.mpr (by exact_mod_cast h)]
  · rw [inf_eq_right.mpr (centiDiv_le b a h), inf_eq_right.mpr (by exact_mod_cast h)]

/-- The clamped-and-quantized linear price stays between the clamp bounds,
for any integer ounce count, when all configuration prices are exact
hundredths. -/
theorem clamp_price_bound (base rate mn mx : ℤ) (hmn : mn ≤ mx) (k : ℤ) :
    ((mn : ℚ) / 100) ≤
        quantize2 (((((base : ℚ) / 100) + (k : ℚ) * ((rate : ℚ) / 100)) ⊔ ((mn : ℚ) / 100)) ⊓
          ((mx : ℚ) / 100)) ∧
      quantize2 (((((base : ℚ) / 100) + (k : ℚ) * ((rate : ℚ) / 100)) ⊔ ((mn : ℚ) / 100)) ⊓
          ((mx : ℚ) / 100)) ≤ ((mx : ℚ) / 100) := by
  have h1 : ((base : ℚ) / 100) + (k : ℚ) * ((rate : ℚ) / 100) =
      ((base + k * rate : ℤ) : ℚ) / 100 := by
    push_cast
    ring
  rw [h1, centi_sup, centi_inf, quantize2_centi]
  constructor
  · exact centiDiv_le _ _ (le_inf (le_sup_right) hmn)
  · exact centiDiv_le _ _ inf_le_right

theorem lookup_ground : SHIPPING_SERVICES.lookup "ground_shipping" =
    some { name := "Ground Shipping", base_price := 2.50, per_oz_rate := 0.05,
           min_price := 2.00, max_price := 5.00 } := rfl

theorem lookup_priority : SHIPPING_SERVICES.lookup "priority_mail" =
    some { name := "Priority Mail", base_price := 5.00, per_oz_rate := 0.10,
           min_price := 4.00, max_price := 8.00 } := rfl

theorem ground_bound (wl wo : Option Int) (l w h : Option ℚ) :
    (2.00 : ℚ) ≤ calculate_shipping_price "ground_shipping" wl wo l w h ∧
      calculate_shipping_price "ground_shipping" wl wo l w h ≤ (5.00 : ℚ) := by
  simp only [calculate_shipping_price, calcPriceWith, lookup_ground]
  have hb : (2.50 : ℚ) = ((250 : ℤ) : ℚ) / 100 := by norm_num
  have hr : (0.05 : ℚ) = ((5 : ℤ) : ℚ) / 100 := by norm_num
  have hmn : (2.00 : ℚ) = ((200 : ℤ) : ℚ) / 100 := by norm_num
  have hmx : (5.00 : ℚ) = ((500 : ℤ) : ℚ) / 100 := by norm_num
  rw [hb, hr, hmn, hmx]
  exact clamp_price_bound 250 5 200 500 (by norm_num) _

theorem priority_bound (wl wo : Option Int) (l w h : Option ℚ) :
    (4.00 : ℚ) ≤ calculate_shipping_price "priority_mail" wl wo l w h ∧
      calculate_shipping_price "priority_mail" wl wo l w h ≤ (8.00 : ℚ) := by
  simp only [calculate_shipping_price, calcPriceWith, lookup_priority]
  have hb : (5.00 : ℚ) = ((500 : ℤ) : ℚ) / 100 := by norm_num
  have hr : (0.10 : ℚ) = ((10 : ℤ) : ℚ) / 100 := by norm_num
  have hmn : (4.00 : ℚ) = ((400 : ℤ) : ℚ) / 100 := by norm_num
  have hmx : (8.00 : ℚ) = ((800 : ℤ) : ℚ) / 100 := by norm_num
  rw [hb, hr, hmn, hmx]
  exact clamp_price_bound 500 10 400 800 (by norm_num) _

/-- Scenario D of the specification, computed on the embedding. -/
theorem scenarioD :
    calculate_shipping_price "ground_shipping" (some 2) (some 0) none none none = 4.10 := by
  simp only [calculate_shipping_price, calcPriceWith, lookup_ground]
  norm_num [intTruthy]
  rw [show (41 / 10 : ℚ) = ((410 : ℤ) : ℚ) / 100 by norm_num, quantize2_centi]

theorem filter_orderedInsert (p : ℚ) (a : ServiceQuote) (l : List ServiceQuote) :
    (List.orderedInsert priceLE a l).filter (fun x => decide (x.price = p)) =
      if a.price = p then a :: l.filter (fun x => decide (x.price = p))
      else l.filter (fun x => decide (x.price = p)) := by
  induction l with
  | nil =>
    by_cases hap : a.price = p <;> simp [List.orderedInsert, List.filter, hap]
  | cons b t ih =>
    simp only [List.orderedInsert]
    by_cases hab : priceLE a b
    · rw [if_pos hab]
      by_cases hap : a.price = p <;> by_cases hbp : b.price = p <;>
        simp [List.filter, hap, hbp]
    · rw [if_neg hab]
      have hba : b.price < a.price := lt_of_not_le hab
      by_cases hap : a.price = p
      · have hbp : b.price ≠ p := by
          intro hbp
          rw [hbp, ← hap] at hba
          exact lt_irrefl _ hba
        simp [List.filter, hbp, ih, hap]
      · by_cases hbp : b.price = p <;> simp [List.filter, hbp, ih, hap]

/-- The insertion sort used by the embedding is stable: for every key value,
it preserves the relative order of entries carrying that key. -/
theorem filter_insertionSort (p : ℚ) (l : List ServiceQuote) :
    (List.insertionSort priceLE l).filter (fun x => decide (x.price = p)) =
      l.filter (fun x => decide (x.price = p)) := by
  induction l with
  | nil => rfl
  | cons a t ih =>
    simp only [List.insertionSort]
    rw [filter_orderedInsert]
    by_cases hap : a.price = p <;> simp [List.filter, hap, ih]

theorem providerStep_none (credential : String) (pr : ProviderResult)
    (h : credential = "" ∨ notAffirmative pr) : providerStep credential pr = none := by
  rcases h with h | h
  · simp [providerStep, h]
  · by_cases hk : credential = ""
    · simp [providerStep, hk]
    · cases pr with
      | ok o =>
        unfold notAffirmative at h
        simp [providerStep, hk, h]
      | exn => simp [providerStep, hk]

theorem padRow_getD_blank (row : List String) (i : Nat) (d : String)
    (h1 : row.length ≤ i) (h2 : i < 23) : (padRow row).getD i d = "" := by
  unfold padRow
  rw [List.getD_append_right _ _ _ _ h1]
  have hlt : i - row.length < 23 - row.length := by omega
  rw [List.getD_eq_getElem?_getD]
  rw [List.getElem?_eq_getElem (by simpa using hlt)]
  simp [List.getElem_replicate]

theorem intOfCleaned_dashes (l : List Char) (h : ∀ c ∈ l, c = '-') :
    intOfCleaned l = .ok none := by
  match l with
  | [] => rfl
  | c :: cs =>
    have hc : c = '-' := h c (List.mem_cons_self c cs)
    subst hc
    unfold intOfCleaned
    cases cs with
    | nil => simp
    | cons c2 cs2 =>
      have hc2 : c2 = '-' := h c2 (by simp)
      subst hc2
      have hnd : ¬ (('-' :: cs2).all Char.isDigit = true) := by
        simp [List.all_cons]
      simp [hnd]

/-- `buildRecord` fails exactly as its first weight cell does. -/
theorem buildRecord_err14 (row : List String) (n : Nat) (e : String)
    (h : _parse_int (row.getD 14 "") = .error e) : buildRecord row n = .error e := by
  unfold buildRecord
  rw [h]

/-- `buildRecord` fails as its second weight cell does when the first one
parses. -/
theorem buildRecord_err15 (row : List String) (n : Nat) (wl : Option Int) (e : String)
    (h14 : _parse_int (row.getD 14 "") = .ok wl)
    (h : _parse_int (row.getD 15 "") = .error e) : buildRecord row n = .error e := by
  unfold buildRecord
  rw [h14, h]

/-- The record `buildRecord` produces when both weight cells parse. -/
theorem buildRecord_eq (row : List String) (n : Nat) (wl wo : Option Int)
    (h14 : _parse_int (row.getD 14 "") = .ok wl)
    (h15 : _parse_int (row.getD 15 "") = .ok wo) :
    buildRecord row n =
      .ok { ship_from_first_name := pyStrip (row.getD 0 "")
            ship_from_last_name := pyStrip (row.getD 1 "")
            ship_from_address := pyStrip (row.getD 2 "")
            ship_from_address2 := pyStrip (row.getD 3 "")
            ship_from_city := pyStrip (row.getD 4 "")
            ship_from_zip := pyStrip (row.getD 5 "")
            ship_from_state := pyStrip (row.getD 6 "")
            ship_to_first_name := pyStrip (row.getD 7 "")
            ship_to_last_name := pyStrip (row.getD 8 "")
            ship_to_address := pyStrip (row.getD 9 "")
            ship_to_address2 := pyStrip (row.getD 10 "")
            ship_to_city := pyStrip (row.getD 11 "")
            ship_to_zip := pyStrip (row.getD 12 "")
            ship_to_state := pyStrip (row.getD 13 "")
            weight_lbs := wl
            weight_oz := wo
            length := _parse_decimal (row.getD 16 "")
            width := _parse_decimal (row.getD 17 "")
            height := _parse_decimal (row.getD 18 "")
            ship_to_phone := pyStrip (row.getD 19 "")
            ship_from_phone := pyStrip (row.getD 20 "")
            order_no := pyStrip (row.getD 21 "")
            item_sku := pyStrip (row.getD 22 "")
            row_number := n } := by
  unfold buildRecord
  rw [h14, h15]

/-- The data-line loop numbers rows by physical position and keeps exactly
the non-blank rows whose record construction succeeds, in input order: the
record built from the line at 0-based offset `i` in the data section
carries row number `n + 1 + i` when the loop starts from counter `n`;
blank lines and lines whose construction raises are counted but dropped. -/
theorem parseRows_eq_enumFrom (rows : List (List String)) :
    ∀ n : Nat, parseRows rows n =
      (List.enumFrom (n + 1) rows).filterMap
        (fun p => if isBlankRow p.2 then none
          else (buildRecord (padRow p.2) p.1).toOption) := by
  induction rows with
  | nil => intro n; simp [parseRows]
  | cons row rest ih =>
    intro n
    rw [List.enumFrom_cons]
    by_cases hb : isBlankRow row
    · simp [parseRows, hb, List.filterMap_cons, ih (n + 1)]
    · cases hbr : buildRecord (padRow row) (n + 1) with
      | ok record =>
        simp [parseRows, hb, hbr, List.filterMap_cons, ih (n + 1), Except.toOption]
      | error e =>
        simp [parseRows, hb, hbr, List.filterMap_cons, ih (n + 1), Except.toOption]

/-! ## Claim C1 — idempotence of `validate` -/

/-- C1 counterexample: `validate` is NOT idempotent as claimed.  For the
concrete record with a complete recipient, a blank sender and a complete
package, validated with a populated default address, the first run returns
status `"default_applied"` but re-running validation on its output (with
the same default) returns status `"valid"` — the status changes, and in
particular does not stay `default_applied`. -/
theorem C1_validate_not_idempotent :
    (validate_shipment_data senderlessRecord (some fullDefault)).status = "default_applied" ∧
    (validate_shipment_data
        (validate_shipment_data senderlessRecord (some fullDefault)).record
        (some fullDefault)).status = "valid" ∧
    ("default_applied" : String) ≠ "valid" := by
  refine ⟨rfl, rfl, by decide⟩

/-- C1 (amended): re-running `validate_shipment_data` on its own output
with the same default never changes the issues list and never changes the
record; the status is also unchanged except when the first run reported
`"default_applied"`.  In that case a default was necessarily supplied, the
backfilled sender fields are populated, and the second run reports the
status recomputed for a present sender: `"default_applied"` again exactly
when the applied default's deciding fields (first name, street, city) are
all blank, and otherwise `"valid"` or `"warning"`. -/
theorem C1_validate_idempotent_amended (r : FieldRecord) (d : Option DefaultAddress) :
    (validate_shipment_data (validate_shipment_data r d).record d).issues =
        (validate_shipment_data r d).issues ∧
    (validate_shipment_data (validate_shipment_data r d).record d).record =
        (validate_shipment_data r d).record ∧
    ((validate_shipment_data r d).status ≠ "default_applied" →
      (validate_shipment_data (validate_shipment_data r d).record d).status =
        (validate_shipment_data r d).status) ∧
    ((validate_shipment_data r d).status = "default_applied" →
      match d with
      | none => False
      | some dd =>
        ((validate_shipment_data (validate_shipment_data r d).record d).status =
            "default_applied" ↔
          (dd.first_name = "" ∧ dd.address = "" ∧ dd.city = "")) ∧
        (¬(dd.first_name = "" ∧ dd.address = "" ∧ dd.city = "") →
          (validate_shipment_data (validate_shipment_data r d).record d).status = "valid" ∨
          (validate_shipment_data (validate_shipment_data r d).record d).status =
            "warning")) := by
  rw [validate_eq r d]
  simp only
  rw [validate_eq (newRecord r d) d]
  simp only
  unfold newRecord statusOf issuesOf
  cases d with
  | none =>
    by_cases hm : ship_from_missing r <;> by_cases hb : recipBad r <;>
      by_cases hp : pkgIssues r ≠ [] <;>
      simp_all [recipBad_applyDefault, recipIssues_applyDefault, pkgIssues_applyDefault]
  | some dd =>
    by_cases hm : ship_from_missing r <;> by_cases hb : recipBad r <;>
      by_cases hp : pkgIssues r ≠ [] <;>
      by_cases hdd : (dd.first_name = "" ∧ dd.address = "" ∧ dd.city = "") <;>
      simp_all [recipBad_applyDefault, recipIssues_applyDefault, pkgIssues_applyDefault,
        missing_applyDefault, applyDefault_idem]

/-! ## Claim C2 — unknown tier behaviour of `quote` -/

/-- C2 counterexample: for the unknown tier id `"express_overnight"`
(not among the configured tiers) and a concrete weight,
`calculate_shipping_price` does not fail — it returns the price
`Decimal("0.00")`.  There is no `UnknownTierError` in the code path: the
function's unknown-service branch returns a value. -/
theorem C2_unknown_tier_returns_zero :
    SHIPPING_SERVICES.lookup "express_overnight" = none ∧
    calculate_shipping_price "express_overnight" (some 3) (some 4) none none none = 0 := by
  exact ⟨rfl, rfl⟩

/-- C2 (amended): for every weight input, calling `calculate_shipping_price`
with a tier identifier that is not among the configured tiers returns the
sentinel price `Decimal("0.00")` (and logs a warning) instead of raising an
`UnknownTierError`. -/
theorem C2_unknown_tier_amended (service : String) (wl wo : Option Int) (l w h : Option ℚ)
    (hunk : SHIPPING_SERVICES.lookup service = none) :
    calculate_shipping_price service wl wo l w h = 0 := by
  unfold calculate_shipping_price calcPriceWith
  rw [hunk]

/-- C2 witness: the amended theorem applied at the concrete unknown tier
`"express_overnight"` with weight 3 lbs 4 oz. -/
theorem C2_unknown_tier_amended_witness :
    SHIPPING_SERVICES.lookup "express_overnight" = none ∧
    calculate_shipping_price "express_overnight" (some 3) (some 4) none none none = 0 :=
  ⟨rfl, C2_unknown_tier_amended "express_overnight" (some 3) (some 4) none none none rfl⟩

/-! ## Claim C3 — the sender-presence check -/

/-- C3 counterexample: a record whose sender street and sender city are
both blank but whose sender FIRST NAME is `"Alice"` is NOT classified as
missing — `ship_from_missing` is `false`, no `"Missing Ship From address"`
issue is produced, and the record validates as `"valid"`.  The first-name
field does influence the classification, contrary to the claim. -/
theorem C3_first_name_influences_missing :
    namedSenderRecord.ship_from_address = "" ∧
    namedSenderRecord.ship_from_city = "" ∧
    ship_from_missing namedSenderRecord = false ∧
    "Missing Ship From address" ∉ (validate_shipment_data namedSenderRecord none).issues ∧
    (validate_shipment_data namedSenderRecord none).status = "valid" := by
  refine ⟨rfl, rfl, rfl, ?_, rfl⟩
  rw [show (validate_shipment_data namedSenderRecord none).issues = [] from rfl]
  simp

/-- C3 (amended): the validator classifies a record's sender address as
missing exactly when the sender first-name field AND the sender street
field AND the sender city field are all blank (`validators.py` lines
156-160); the sender last-name field has no influence.  Equivalently, with
no default supplied, the `"Missing Ship From address"` issue is produced
precisely for such records. -/
theorem C3_sender_presence_amended (r : FieldRecord) (s : String) :
    ("Missing Ship From address" ∈ (validate_shipment_data r none).issues ↔
      (r.ship_from_first_name = "" ∧ r.ship_from_address = "" ∧ r.ship_from_city = "")) ∧
    ship_from_missing { r with ship_from_last_name := s } = ship_from_missing r := by
  constructor
  · rw [validate_eq]
    simp only
    unfold issuesOf
    simp only [List.mem_append, sfMsg_not_recip, sfMsg_not_pkg, false_or, or_false]
    by_cases hm : ship_from_missing r
    · simp only [hm, and_true, if_pos, List.mem_singleton]
      unfold ship_from_missing at hm
      simp at hm
      simp [hm]
    · simp only [hm]
      unfold ship_from_missing at hm
      simp at hm
      simp only [Bool.false_eq_true, false_and, if_neg, List.not_mem_nil, false_iff]
      simp
      exact hm
  · rfl

/-! ## Claim C4 — row ordering and numbering in the parser -/

/-- C4 counterexample: in a file with two header lines and the single data
line `["Alice"]`, the parser's record for the first data line carries row
number 3, not 1 — `row_num` starts at 2 and is incremented for every
physical line, so records are numbered by file line (headers included),
not from 1 at the first data line. -/
theorem C4_first_data_line_numbered_three :
    (parse_csv_file [["h"], ["h"], ["Alice"]]).map (List.map FieldRecord.row_number) =
        .ok [3] ∧
    (3 : Nat) ≠ 1 := by
  refine ⟨rfl, by decide⟩

/-- C4 (amended): the parser's output keeps the surviving data lines in
input order, and each emitted record carries the 1-based physical line
number of its source line in the file — the two header lines count, and
skipped lines (blank ones, and ones whose weight-cell parsing raises
`OverflowError`) also count — so the data line at 0-based offset `i` after
the headers yields row number `i + 3` (the first data line yields 3, not
1). -/
theorem C4_row_order_and_numbering (h1 h2 : List String) (rows : List (List String))
    (hh1 : h1 ≠ []) (hh2 : h2 ≠ []) :
    parse_csv_file (h1 :: h2 :: rows) =
      .ok ((List.enumFrom 3 rows).filterMap
        (fun p => if isBlankRow p.2 then none
          else (buildRecord (padRow p.2) p.1).toOption)) := by
  have hred : parse_csv_file (h1 :: h2 :: rows) =
      if h1 = [] ∨ h2 = [] then
        .error "Failed to parse CSV file: CSV file must have at least 2 header rows"
      else .ok (parseRows rows 2) := rfl
  rw [hred, if_neg (by simp [hh1, hh2]), parseRows_eq_enumFrom]

/-- C4 witness: the amended theorem applied to a concrete four-data-line
file whose second line is blank and whose third line raises on its weight
cell. -/
theorem C4_row_order_and_numbering_witness :
    (["ha"] : List String) ≠ [] ∧ (["hb"] : List String) ≠ [] ∧
    parse_csv_file [["ha"], ["hb"], ["Alice"], ["", " "], overflowRow, ["Bob"]] =
      .ok ((List.enumFrom 3 [["Alice"], ["", " "], overflowRow, ["Bob"]]).filterMap
        (fun p => if isBlankRow p.2 then none
          else (buildRecord (padRow p.2) p.1).toOption)) :=
  ⟨by simp, by simp,
    C4_row_order_and_numbering ["ha"] ["hb"] [["Alice"], ["", " "], overflowRow, ["Bob"]]
      (by simp) (by simp)⟩

/-! ## Claim C5 — resolver outcome when no provider verifies -/

/-- C5 counterexample: with neither provider configured the resolver does
return `valid = false` and `source = "none"`, but its message is the
literal `"Address validation unavailable. Please verify address
manually."`, not `"manual verification required"` as the claim states. -/
theorem C5_fallback_message_differs :
    (validate_address "" "" (fun _ => .exn) (fun _ => .exn) exampleAddress).message ≠
        "manual verification required" ∧
    (validate_address "" "" (fun _ => .exn) (fun _ => .exn) exampleAddress).valid = false ∧
    (validate_address "" "" (fun _ => .exn) (fun _ => .exn) exampleAddress).source = "none" := by
  refine ⟨?_, rfl, rfl⟩
  decide

/-- C5 (amended): for every input address, whenever the primary provider is
unconfigured, raises, or answers non-affirmatively, and likewise the
secondary, the resolver returns exactly the outcome `{ valid: false,
source: "none", message: "Address validation unavailable. Please verify
address manually.", validated_address: none }`; it does not raise, and — the
embedding being a pure function of the address — the input address fields
are left unchanged. -/
theorem C5_no_provider_outcome_amended (usps_user_id google_api_key : String)
    (usps google : AddressData → ProviderResult) (a : AddressData)
    (hu : usps_user_id = "" ∨ notAffirmative (usps a))
    (hg : google_api_key = "" ∨ notAffirmative (google a)) :
    validate_address usps_user_id google_api_key usps google a =
      { valid := false
        source := "none"
        message := "Address validation unavailable. Please verify address manually."
        validated_address := none } := by
  unfold validate_address
  rw [providerStep_none usps_user_id (usps a) hu,
    providerStep_none google_api_key (google a) hg]

/-- C5 witness: the amended theorem applied with both credentials empty and
both providers raising, at a concrete address. -/
theorem C5_no_provider_outcome_amended_witness :
    (("" : String) = "" ∨ notAffirmative ((fun _ => .exn : AddressData → ProviderResult)
        exampleAddress)) ∧
    (("" : String) = "" ∨ notAffirmative ((fun _ => .exn : AddressData → ProviderResult)
        exampleAddress)) ∧
    validate_address "" "" (fun _ => .exn) (fun _ => .exn) exampleAddress =
      { valid := false
        source := "none"
        message := "Address validation unavailable. Please verify address manually."
        validated_address := none } :=
  ⟨Or.inl rfl, Or.inl rfl,
    C5_no_provider_outcome_amended "" "" (fun _ => .exn) (fun _ => .exn) exampleAddress
      (Or.inl rfl) (Or.inl rfl)⟩

/-! ## Claim C6 — price bounds and Scenario D -/

/-- C6: for every configured tier and every weight/dimension input, the
price computed by `calculate_shipping_price` lies in the closed interval
from the tier's `min_price` to its `max_price`; and Scenario D holds:
`calculate_shipping_price "ground_shipping" (some 2) (some 0)` with the
configured base 2.50, rate 0.05, min 2.00 and max 5.00 returns exactly
4.10. -/
theorem C6_price_within_bounds (tid : String) (cfg : ServiceConfig)
    (hmem : (tid, cfg) ∈ SHIPPING_SERVICES) (wl wo : Option Int) (l w h : Option ℚ) :
    (cfg.min_price ≤ calculate_shipping_price tid wl wo l w h ∧
      calculate_shipping_price tid wl wo l w h ≤ cfg.max_price) ∧
    calculate_shipping_price "ground_shipping" (some 2) (some 0) none none none = 4.10 := by
  refine ⟨?_, scenarioD⟩
  simp only [SHIPPING_SERVICES, List.mem_cons, List.not_mem_nil, or_false,
    Prod.mk.injEq] at hmem
  rcases hmem with ⟨rfl, rfl⟩ | ⟨rfl, rfl⟩
  · exact priority_bound wl wo l w h
  · exact ground_bound wl wo l w h

/-- C6 witness: the bounds theorem applied to the ground tier with a
concrete 2 lbs 0 oz weight. -/
theorem C6_price_within_bounds_witness :
    ("ground_shipping",
      ({ name := "Ground Shipping", base_price := 2.50, per_oz_rate := 0.05,
         min_price := 2.00, max_price := 5.00 } : ServiceConfig)) ∈ SHIPPING_SERVICES ∧
    (((2.00 : ℚ) ≤ calculate_shipping_price "ground_shipping" (some 2) (some 0) none none none ∧
      calculate_shipping_price "ground_shipping" (some 2) (some 0) none none none ≤ (5.00 : ℚ)) ∧
    calculate_shipping_price "ground_shipping" (some 2) (some 0) none none none = 4.10) :=
  ⟨List.mem_cons_of_mem _ (List.mem_cons_self _ _),
    C6_price_within_bounds "ground_shipping"
      { name := "Ground Shipping", base_price := 2.50, per_oz_rate := 0.05,
        min_price := 2.00, max_price := 5.00 }
      (List.mem_cons_of_mem _ (List.mem_cons_self _ _)) (some 2) (some 0) none none none⟩

/-! ## Claim C7 — the 1-ounce floor -/

/-- C7: for every tier identifier and every absent-or-zero pair of weight
fields, `calculate_shipping_price` returns the same price as with a total
weight of exactly 1 ounce supplied: the price is never computed from a
zero weight. -/
theorem C7_one_ounce_floor (service : String) (wl wo : Option Int) (l w h : Option ℚ)
    (hwl : wl = none ∨ wl = some 0) (hwo : wo = none ∨ wo = some 0) :
    calculate_shipping_price service wl wo l w h =
      calculate_shipping_price service none (some 1) l w h := by
  unfold calculate_shipping_price calcPriceWith
  rcases hwl with rfl | rfl <;> rcases hwo with rfl | rfl <;>
    cases SHIPPING_SERVICES.lookup service <;> simp [intTruthy]

/-- C7 witness: the floor theorem applied to the ground tier with both
weight fields zero. -/
theorem C7_one_ounce_floor_witness :
    ((some 0 : Option Int) = none ∨ (some 0 : Option Int) = some 0) ∧
    calculate_shipping_price "ground_shipping" (some 0) (some 0) none none none =
      calculate_shipping_price "ground_shipping" none (some 1) none none none :=
  ⟨Or.inr rfl,
    C7_one_ounce_floor "ground_shipping" (some 0) (some 0) none none none
      (Or.inr rfl) (Or.inr rfl)⟩

/-! ## Claim C8 — `quoteAll` shape, order, stability -/

/-- C8: for every configured service table and every weight/dimension
input, `get_available_services` returns exactly one entry per configured
tier (hence a non-empty list whenever at least one tier is configured),
sorted non-decreasing by computed price; and for every price value the
entries carrying that price appear in configuration iteration order
(stability of the sort). -/
theorem C8_quoteAll_sorted_stable (services : List (String × ServiceConfig))
    (wl wo : Option Int) (l w h : Option ℚ) (p : ℚ) (hne : services ≠ []) :
    (get_available_services_with services wl wo l w h).length = services.length ∧
    get_available_services_with services wl wo l w h ≠ [] ∧
    List.Sorted priceLE (get_available_services_with services wl wo l w h) ∧
    (get_available_services_with services wl wo l w h).filter
        (fun x => decide (x.price = p)) =
      (quotesFor services wl wo l w h).filter (fun x => decide (x.price = p)) := by
  refine ⟨?_, ?_, ?_, ?_⟩
  · rw [get_available_services_with, List.length_insertionSort, quotesFor, List.length_map]
  · rw [get_available_services_with]
    intro hemp
    apply hne
    have hlen := List.length_insertionSort priceLE (quotesFor services wl wo l w h)
    rw [hemp] at hlen
    simp [quotesFor] at hlen
    exact List.length_eq_zero.mp hlen.symm
  · exact List.sorted_insertionSort priceLE _
  · exact filter_insertionSort p _

/-- C8 witness: the theorem applied to the module's own two-tier
configuration at a concrete weight. -/
theorem C8_quoteAll_sorted_stable_witness :
    SHIPPING_SERVICES ≠ [] ∧
    ((get_available_services_with SHIPPING_SERVICES (some 2) (some 0) none none none).length =
        SHIPPING_SERVICES.length ∧
    get_available_services_with SHIPPING_SERVICES (some 2) (some 0) none none none ≠ [] ∧
    List.Sorted priceLE
      (get_available_services_with SHIPPING_SERVICES (some 2) (some 0) none none none) ∧
    (get_available_services_with SHIPPING_SERVICES (some 2) (some 0) none none none).filter
        (fun x => decide (x.price = 4.10)) =
      (quotesFor SHIPPING_SERVICES (some 2) (some 0) none none none).filter
        (fun x => decide (x.price = 4.10))) :=
  ⟨List.cons_ne_nil _ _,
    C8_quoteAll_sorted_stable SHIPPING_SERVICES (some 2) (some 0) none none none 4.10
      (List.cons_ne_nil _ _)⟩

/-! ## Claim C9 — short rows are padded, never rejected -/

set_option maxRecDepth 40000 in
/-- C9 counterexample: a data line with 15 fields (fewer than 23) and an
overlong digit string in its weight-pounds cell produces NO record — the
`OverflowError` from `int(float(...))` escapes `_parse_int` and the
per-row handler skips the line — so the claim that every short line
yields a fully populated record without an exception is false of the
code. -/
theorem C9_overflow_row_skipped :
    overflowRow.length < 23 ∧ isBlankRow overflowRow = false ∧
    parse_csv_file [["h"], ["h"], overflowRow] = .ok [] := by
  refine ⟨by decide, rfl, rfl⟩

/-- C9 (amended): a data line with fewer than 23 fields is never rejected
for its length: whenever its record construction succeeds — the only
failure mode being an `OverflowError` raised by an overlong weight-cell
digit string, which makes the per-row handler skip the line — the parser
returns a record in which all 23 logical attributes are populated, the
attributes at positions at or beyond the line's length being the empty
string (text fields) or absent (numeric fields); and construction always
succeeds for a line with at most 14 fields, since the weight cells are
then padding. -/
theorem C9_short_rows_padded (h1 h2 row : List String) (rec : FieldRecord)
    (row2 : List String)
    (hh1 : h1 ≠ []) (hh2 : h2 ≠ []) (hnb : isBlankRow row = false)
    (hlen : row.length < 23)
    (hbuild : buildRecord (padRow row) 3 = .ok rec)
    (hr2 : row2.length ≤ 14) :
    parse_csv_file [h1, h2, row] = .ok [rec] ∧
    (row.length ≤ 0 → rec.ship_from_first_name = "") ∧
    (row.length ≤ 1 → rec.ship_from_last_name = "") ∧
    (row.length ≤ 2 → rec.ship_from_address = "") ∧
    (row.length ≤ 3 → rec.ship_from_address2 = "") ∧
    (row.length ≤ 4 → rec.ship_from_city = "") ∧
    (row.length ≤ 5 → rec.ship_from_zip = "") ∧
    (row.length ≤ 6 → rec.ship_from_state = "") ∧
    (row.length ≤ 7 → rec.ship_to_first_name = "") ∧
    (row.length ≤ 8 → rec.ship_to_last_name = "") ∧
    (row.length ≤ 9 → rec.ship_to_address = "") ∧
    (row.length ≤ 10 → rec.ship_to_address2 = "") ∧
    (row.length ≤ 11 → rec.ship_to_city = "") ∧
    (row.length ≤ 12 → rec.ship_to_zip = "") ∧
    (row.length ≤ 13 → rec.ship_to_state = "") ∧
    (row.length ≤ 14 → rec.weight_lbs = none) ∧
    (row.length ≤ 15 → rec.weight_oz = none) ∧
    (row.length ≤ 16 → rec.length = none) ∧
    (row.length ≤ 17 → rec.width = none) ∧
    (row.length ≤ 18 → rec.height = none) ∧
    (row.length ≤ 19 → rec.ship_to_phone = "") ∧
    (row.length ≤ 20 → rec.ship_from_phone = "") ∧
    (row.length ≤ 21 → rec.order_no = "") ∧
    (row.length ≤ 22 → rec.item_sku = "") ∧
    (buildRecord (padRow row2) 3).isOk = true := by
  obtain ⟨wl, h14⟩ : ∃ wl, _parse_int ((padRow row).getD 14 "") = .ok wl := by
    cases h : _parse_int ((padRow row).getD 14 "") with
    | ok wl => exact ⟨wl, rfl⟩
    | error e =>
      rw [buildRecord_err14 (padRow row) 3 e h] at hbuild
      exact absurd hbuild (by simp)
  obtain ⟨wo, h15⟩ : ∃ wo, _parse_int ((padRow row).getD 15 "") = .ok wo := by
    cases h : _parse_int ((padRow row).getD 15 "") with
    | ok wo => exact ⟨wo, rfl⟩
    | error e =>
      rw [buildRecord_err15 (padRow row) 3 wl e h14 h] at hbuild
      exact absurd hbuild (by simp)
  have hE := buildRecord_eq (padRow row) 3 wl wo h14 h15
  rw [hE] at hbuild
  have hrec := ((Except.ok.injEq _ _).mp hbuild).symm
  subst hrec
  refine ⟨?_,?_,?_,?_,?_,?_,?_,?_,?_,?_,?_,?_,?_,?_,?_,?_,?_,?_,?_,?_,?_,?_,?_,?_,?_⟩
  · have hred : parse_csv_file [h1, h2, row] =
        if h1 = [] ∨ h2 = [] then
          .error "Failed to parse CSV file: CSV file must have at least 2 header rows"
        else .ok (parseRows [row] 2) := rfl
    rw [hred, if_neg (by simp [hh1, hh2])]
    simp [parseRows, hnb, hE]
  · intro hle
    show pyStrip ((padRow row).getD 0 "") = ""
    rw [padRow_getD_blank row 0 "" hle (by norm_num)]
    rfl
  · intro hle
    show pyStrip ((padRow row).getD 1 "") = ""
    rw [padRow_getD_blank row 1 "" hle (by norm_num)]
    rfl
  · intro hle
    show pyStrip ((padRow row).getD 2 "") = ""
    rw [padRow_getD_blank row 2 "" hle (by norm_num)]
    rfl
  · intro hle
    show pyStrip ((padRow row).getD 3 "") = ""
    rw [padRow_getD_blank row 3 "" hle (by norm_num)]
    rfl
  · intro hle
    show pyStrip ((padRow row).getD 4 "") = ""
    rw [padRow_getD_blank row 4 "" hle (by norm_num)]
    rfl
  · intro hle
    show pyStrip ((padRow row).getD 5 "") = ""
    rw [padRow_getD_blank row 5 "" hle (by norm_num)]
    rfl
  · intro hle
    show pyStrip ((padRow row).getD 6 "") = ""
    rw [padRow_getD_blank row 6 "" hle (by norm_num)]
    rfl
  · intro hle
    show pyStrip ((padRow row).getD 7 "") = ""
    rw [padRow_getD_blank row 7 "" hle (by norm_num)]
    rfl
  · intro hle
    show pyStrip ((padRow row).getD 8 "") = ""
    rw [padRow_getD_blank row 8 "" hle (by norm_num)]
    rfl
  · intro hle
    show pyStrip ((padRow row).getD 9 "") = ""
    rw [padRow_getD_blank row 9 "" hle (by norm_num)]
    rfl
  · intro hle
    show pyStrip ((padRow row).getD 10 "") = ""
    rw [padRow_getD_blank row 10 "" hle (by norm_num)]
    rfl
  · intro hle
    show pyStrip ((padRow row).getD 11 "") = ""
    rw [padRow_getD_blank row 11 "" hle (by norm_num)]
    rfl
  · intro hle
    show pyStrip ((padRow row).getD 12 "") = ""
    rw [padRow_getD_blank row 12 "" hle (by norm_num)]
    rfl
  · intro hle
    show pyStrip ((padRow row).getD 13 "") = ""
    rw [padRow_getD_blank row 13 "" hle (by norm_num)]
    rfl
  · intro hle
    show wl = none
    rw [padRow_getD_blank row 14 "" hle (by norm_num)] at h14
    exact ((Except.ok.injEq _ _).mp h14).symm
  · intro hle
    show wo = none
    rw [padRow_getD_blank row 15 "" hle (by norm_num)] at h15
    exact ((Except.ok.injEq _ _).mp h15).symm
  · intro hle
    show _parse_decimal ((padRow row).getD 16 "") = none
    rw [padRow_getD_blank row 16 "" hle (by norm_num)]
    rfl
  · intro hle
    show _parse_decimal ((padRow row).getD 17 "") = none
    rw [padRow_getD_blank row 17 "" hle (by norm_num)]
    rfl
  · intro hle
    show _parse_decimal ((padRow row).getD 18 "") = none
    rw [padRow_getD_blank row 18 "" hle (by norm_num)]
    rfl
  · intro hle
    show pyStrip ((padRow row).getD 19 "") = ""
    rw [padRow_getD_blank row 19 "" hle (by norm_num)]
    rfl
  · intro hle
    show pyStrip ((padRow row).getD 20 "") = ""
    rw [padRow_getD_blank row 20 "" hle (by norm_num)]
    rfl
  · intro hle
    show pyStrip ((padRow row).getD 21 "") = ""
    rw [padRow_getD_blank row 21 "" hle (by norm_num)]
    rfl
  · intro hle
    show pyStrip ((padRow row).getD 22 "") = ""
    rw [padRow_getD_blank row 22 "" hle (by norm_num)]
    rfl
  · have hc14 : (padRow row2).getD 14 "" = "" :=
      padRow_getD_blank row2 14 "" hr2 (by norm_num)
    have hc15 : (padRow row2).getD 15 "" = "" :=
      padRow_getD_blank row2 15 "" (hr2.trans (by norm_num)) (by norm_num)
    unfold buildRecord
    rw [hc14, hc15]
    rfl

/-- C9 witness: the amended theorem applied to the concrete one-cell data
line `["Alice"]` (whose record is `aliceRecord`) and the one-cell line
`["x"]` for the always-succeeds part. -/
theorem C9_short_rows_padded_witness :
    (["hx"] : List String) ≠ [] ∧ (["hy"] : List String) ≠ [] ∧
    isBlankRow ["Alice"] = false ∧ (["Alice"] : List String).length < 23 ∧
    buildRecord (padRow ["Alice"]) 3 = .ok aliceRecord ∧
    (["x"] : List String).length ≤ 14 ∧
    parse_csv_file [["hx"], ["hy"], ["Alice"]] = .ok [aliceRecord] ∧
    aliceRecord.ship_from_last_name = "" ∧
    aliceRecord.weight_lbs = none ∧
    aliceRecord.length = none ∧
    aliceRecord.item_sku = "" ∧
    (buildRecord (padRow ["x"]) 3).isOk = true :=
  have h := C9_short_rows_padded ["hx"] ["hy"] ["Alice"] aliceRecord ["x"]
    (by simp) (by simp) rfl (by decide) rfl (by decide)
  ⟨by simp, by simp, rfl, by decide, rfl, by decide, h.1, h.2.2.1 (by decide),
    h.2.2.2.2.2.2.2.2.2.2.2.2.2.2.2.1 (by decide),
    h.2.2.2.2.2.2.2.2.2.2.2.2.2.2.2.2.2.1 (by decide),
    h.2.2.2.2.2.2.2.2.2.2.2.2.2.2.2.2.2.2.2.2.2.2.2.1 (by decide),
    h.2.2.2.2.2.2.2.2.2.2.2.2.2.2.2.2.2.2.2.2.2.2.2.2⟩

/-! ## Claim C10 — `_parse_int` totality and the decimal-point quirk -/

set_option maxRecDepth 40000 in
/-- C10 counterexample: `_parse_int` is NOT total — on a 400-digit cell
`int(float(...))` raises an uncaught `OverflowError` (only `ValueError`
and `TypeError` are caught), modelled as the `.error` result; and the
point-deletion is filtered through a 64-bit double, so the concatenated
digits 9007199254740993 of `"90071992547409.93"` come back as
9007199254740992. -/
theorem C10_parse_int_raises :
    _parse_int nines400 = .error "OverflowError" ∧
    _parse_int "90071992547409.93" = .ok (some 9007199254740992) ∧
    (9007199254740992 : Int) ≠ 9007199254740993 := by
  refine ⟨rfl, rfl, by decide⟩

set_option maxRecDepth 40000 in
/-- C10 (amended): `_parse_int` returns `None` for blank input and for
ASCII digit-free input, and it catches `ValueError`/`TypeError` — but it
is not total: an input whose cleaned digit string overflows the 64-bit
float range makes `int(float(...))` raise an uncaught `OverflowError`.
For an input containing a decimal point it deletes the point and
concatenates the surrounding digits (rounded through the double), so
`_parse_int "5.0"` returns 50 rather than 5. -/
theorem C10_parse_int_behaviour (v w : String) (hv : pyStrip v = "")
    (hw : ∀ c ∈ (pyStrip w).data, c.toNat < 128 ∧ ¬ c.isDigit = true) :
    _parse_int v = .ok none ∧ _parse_int w = .ok none ∧
    _parse_int "5.0" = .ok (some 50) ∧ _parse_int "5.0" ≠ .ok (some 5) ∧
    _parse_int nines400 = .error "OverflowError" := by
  have hne : _parse_int "5.0" ≠ .ok (some 5) := by
    intro hcontra
    rw [show _parse_int "5.0" = (Except.ok (some 50) : Except String (Option Int))
      from rfl] at hcontra
    simp at hcontra
  refine ⟨by simp [_parse_int, hv], ?_, rfl, hne, rfl⟩
  unfold _parse_int
  by_cases hw0 : pyStrip w = ""
  · simp [hw0]
  · rw [if_neg hw0]
    simp only
    have hdash : ∀ c ∈ (pyStrip w).data.filter (fun c => c.isDigit || c == '-'), c = '-' := by
      intro c hc
      obtain ⟨hmem, hcond⟩ := List.mem_filter.mp hc
      rcases Bool.or_eq_true_iff.mp hcond with hdig | hdashc
      · exact absurd hdig (hw c hmem).2
      · exact (beq_iff_eq ..).mp hdashc
    by_cases hemp : ((pyStrip w).data.filter (fun c => c.isDigit || c == '-')).isEmpty
    · simp [hemp]
    · simp [hemp, intOfCleaned_dashes _ hdash]

set_option maxRecDepth 40000 in
/-- C10 witness: the theorem applied to the blank input `"   "` and the
digit-free ASCII input `"a-b"`. -/
theorem C10_parse_int_behaviour_witness :
    pyStrip "   " = "" ∧ (∀ c ∈ (pyStrip "a-b").data, c.toNat < 128 ∧ ¬ c.isDigit = true) ∧
    _parse_int "   " = .ok none ∧ _parse_int "a-b" = .ok none ∧
    _parse_int "5.0" = .ok (some 50) ∧ _parse_int "5.0" ≠ .ok (some 5) ∧
    _parse_int nines400 = .error "OverflowError" :=
  have h := C10_parse_int_behaviour "   " "a-b" rfl (by decide)
  ⟨rfl, by decide, h.1, h.2.1, h.2.2.1, h.2.2.2.1, h.2.2.2.2⟩

end Shipping
